import Mathlib

/-!
Verification of the purchase-order processing engine.

The development shallowly embeds the repository's Python modules:

* `models.py` — `PurchaseOrderItem`, `PurchaseOrder`, `PurchaseOrderApproval`
  with their `to_dict` / `from_dict` (de)serialization.  Python dictionaries
  that carry deserialized JSON payloads are modelled as association lists of
  `String × JValue`; Python's dynamic numerics (int / float) are modelled
  uniformly as `ℚ`.  `dict.get k` is `pyGet`, `dict.get k default` is `getOr`.
  Python `from_dict` stores whatever value the payload holds without a type
  check; the model restricts attention to payloads of the serialized shape by
  returning `none` when a present value does not have the serialized type
  (Python itself raises on a malformed `items` value, so `from_dict` is
  genuinely fallible).
* `agents.py` — `ProcessingAgent.__init__` / `invoke` and
  `ProcessingAgentExecutor.execute` / `cancel`.  The external completion
  service is an oracle `CompletionEnv`; `os.getenv` is an oracle
  `String → Option String`; Python truthiness of optional strings is
  `truthyOpt` (both `None` and `""` are falsy).
* The business rule evaluator lives in the repository's Rust data agent,
  whose sources are not part of the Python tree; it is modelled from the
  spec (`evaluatePurchaseOrder`).
-/

/-- A JSON-like dynamic value: the payloads Python's `json.loads` produces
and `models.py` manipulates.  Python ints and floats are both `num`. -/
inductive JValue where
  | null : JValue
  | bool : Bool → JValue
  | num : ℚ → JValue
  | str : String → JValue
  | arr : List JValue → JValue
  | obj : List (String × JValue) → JValue

/-- A Python dictionary holding a deserialized JSON object. -/
abbrev JDict := List (String × JValue)

/-- Python `data.get(k)` without a default: the first binding of `k`,
or `none` when the key is absent. -/
def pyGet : JDict → String → Option JValue
  | [], _ => none
  | (k', v) :: rest, k => if k = k' then some v else pyGet rest k

/-- Python `data.get(k, default)`: the bound value, or `default` when the
key is absent.  A key bound to `null` yields `JValue.null`, not the default,
exactly as in Python. -/
def getOr (d : JDict) (k : String) (default : JValue) : JValue :=
  (pyGet d k).getD default

/-- True iff the key occurs in the dictionary. -/
def hasKey (d : JDict) (k : String) : Bool :=
  (pyGet d k).isSome

/-- Encode an optional string field the way `to_dict` writes it:
Python `None` becomes JSON `null`. -/
def jstr : Option String → JValue
  | none => JValue.null
  | some s => JValue.str s

/-- Decode a value into an optional-string field (`Optional[str]` in the
dataclass): `null` is `None`, a string is itself, anything else is outside
the serialized shape. -/
def decodeOptStr : JValue → Option (Option String)
  | JValue.null => some none
  | JValue.str s => some (some s)
  | _ => none

/-- Decode a numeric field. -/
def decodeNum : JValue → Option ℚ
  | JValue.num q => some q
  | _ => none

/-- Decode a boolean field. -/
def decodeBool : JValue → Option Bool
  | JValue.bool b => some b
  | _ => none

/-- The `models.py` line-item dataclass `PurchaseOrderItem`. -/
structure PurchaseOrderItem where
  item_code : Option String := none
  description : Option String := none
  quantity : ℚ := 0
  unit_price : ℚ := 0
  line_total : ℚ := 0
  deriving DecidableEq

namespace PurchaseOrderItem

/-- Embedding of `PurchaseOrderItem.to_dict`. -/
def to_dict (it : PurchaseOrderItem) : JDict :=
  [ ("itemCode", jstr it.item_code),
    ("description", jstr it.description),
    ("quantity", JValue.num it.quantity),
    ("unitPrice", JValue.num it.unit_price),
    ("lineTotal", JValue.num it.line_total) ]

/-- Embedding of `PurchaseOrderItem.from_dict`: every field read with `data.get` and the
dataclass defaults (`0` for the numerics, absent for the strings). -/
def from_dict (d : JDict) : Option PurchaseOrderItem := do
  let item_code ← decodeOptStr (getOr d "itemCode" JValue.null)
  let description ← decodeOptStr (getOr d "description" JValue.null)
  let quantity ← decodeNum (getOr d "quantity" (JValue.num 0))
  let unit_price ← decodeNum (getOr d "unitPrice" (JValue.num 0))
  let line_total ← decodeNum (getOr d "lineTotal" (JValue.num 0))
  pure ⟨item_code, description, quantity, unit_price, line_total⟩

end PurchaseOrderItem

@[simp] theorem decodeOptStr_jstr (o : Option String) :
    decodeOptStr (jstr o) = some o := by
  cases o <;> rfl

@[simp] theorem decodeNum_num (q : ℚ) : decodeNum (JValue.num q) = some q := rfl

@[simp] theorem decodeBool_bool (b : Bool) : decodeBool (JValue.bool b) = some b := rfl

theorem item_from_dict_to_dict (it : PurchaseOrderItem) :
    PurchaseOrderItem.from_dict it.to_dict = some it := by
  cases it with
  | mk ic d q up lt =>
      cases ic <;> cases d <;> rfl

/-- The `models.py` dataclass `PurchaseOrder`.  `__post_init__` replaces a
`None` items list with `[]`; the model's items field holds the list
directly. -/
structure PurchaseOrder where
  supplier_name : Option String := none
  supplier_address_line1 : Option String := none
  supplier_address_line2 : Option String := none
  supplier_city : Option String := none
  supplier_state : Option String := none
  supplier_postal_code : Option String := none
  supplier_country : Option String := none
  items : List PurchaseOrderItem := []
  po_number : Option String := none
  created_by : Option String := none
  buyer_department : Option String := none
  notes : Option String := none
  tax_rate : ℚ := 0
  sub_total : ℚ := 0
  tax : ℚ := 0
  grand_total : ℚ := 0
  is_approved : Bool := false
  approval_reason : Option String := none

namespace PurchaseOrder

/-- Embedding of `PurchaseOrder.to_dict`. -/
def to_dict (po : PurchaseOrder) : JDict :=
  [ ("supplierName", jstr po.supplier_name),
    ("supplierAddressLine1", jstr po.supplier_address_line1),
    ("supplierAddressLine2", jstr po.supplier_address_line2),
    ("supplierCity", jstr po.supplier_city),
    ("supplierState", jstr po.supplier_state),
    ("supplierPostalCode", jstr po.supplier_postal_code),
    ("supplierCountry", jstr po.supplier_country),
    ("items", JValue.arr (po.items.map fun it => JValue.obj it.to_dict)),
    ("poNumber", jstr po.po_number),
    ("createdBy", jstr po.created_by),
    ("buyerDepartment", jstr po.buyer_department),
    ("notes", jstr po.notes),
    ("taxRate", JValue.num po.tax_rate),
    ("subTotal", JValue.num po.sub_total),
    ("tax", JValue.num po.tax),
    ("grandTotal", JValue.num po.grand_total),
    ("isApproved", JValue.bool po.is_approved),
    ("approvalReason", jstr po.approval_reason) ]

end PurchaseOrder

/-- Decode one element of the serialized items list: Python calls
`PurchaseOrderItem.from_dict(item)` on each element, which requires each
element to be a dictionary. -/
def decodeItem : JValue → Option PurchaseOrderItem
  | JValue.obj d => PurchaseOrderItem.from_dict d
  | _ => none

/-- The list comprehension
`[PurchaseOrderItem.from_dict(item) for item in ...]`: elements decoded
left to right, the first malformed element aborts (Python raises there). -/
def decodeItemList : List JValue → Option (List PurchaseOrderItem)
  | [] => some []
  | v :: rest => do
      let it ← decodeItem v
      let tl ← decodeItemList rest
      pure (it :: tl)

/-- Decode the serialized items value: Python iterates
`data.get("items", [])`, so it must be a list (anything else raises). -/
def decodeItems : JValue → Option (List PurchaseOrderItem)
  | JValue.arr xs => decodeItemList xs
  | _ => none

namespace PurchaseOrder

/-!
Python's `PurchaseOrder.from_dict` evaluates `data.get("items", [])` and
then one `data.get` per keyword argument of the single `cls(...)` call.
The field reads are grouped below into helper decoders (supplier block,
metadata block, amounts block, approval block) purely to keep the
generated code small; the groups concatenate, in order, to exactly the
argument list of `cls(...)` in `models.py`.
-/

/-- The seven supplier fields of `PurchaseOrder.from_dict`, in source
order. -/
def supplierFields (d : JDict) :
    Option (Option String × Option String × Option String × Option String ×
      Option String × Option String × Option String) := do
  let supplier_name ← decodeOptStr (getOr d "supplierName" JValue.null)
  let supplier_address_line1 ← decodeOptStr (getOr d "supplierAddressLine1" JValue.null)
  let supplier_address_line2 ← decodeOptStr (getOr d "supplierAddressLine2" JValue.null)
  let supplier_city ← decodeOptStr (getOr d "supplierCity" JValue.null)
  let supplier_state ← decodeOptStr (getOr d "supplierState" JValue.null)
  let supplier_postal_code ← decodeOptStr (getOr d "supplierPostalCode" JValue.null)
  let supplier_country ← decodeOptStr (getOr d "supplierCountry" JValue.null)
  pure (supplier_name, supplier_address_line1, supplier_address_line2,
    supplier_city, supplier_state, supplier_postal_code, supplier_country)

/-- The metadata fields `poNumber`, `createdBy`, `buyerDepartment`,
`notes` of `PurchaseOrder.from_dict`, in source order. -/
def metaFields (d : JDict) :
    Option (Option String × Option String × Option String × Option String) := do
  let po_number ← decodeOptStr (getOr d "poNumber" JValue.null)
  let created_by ← decodeOptStr (getOr d "createdBy" JValue.null)
  let buyer_department ← decodeOptStr (getOr d "buyerDepartment" JValue.null)
  let notes ← decodeOptStr (getOr d "notes" JValue.null)
  pure (po_number, created_by, buyer_department, notes)

/-- The numeric fields `taxRate`, `subTotal`, `tax`, `grandTotal` of
`PurchaseOrder.from_dict`, in source order, defaulting to `0`. -/
def amountFields (d : JDict) : Option (ℚ × ℚ × ℚ × ℚ) := do
  let tax_rate ← decodeNum (getOr d "taxRate" (JValue.num 0))
  let sub_total ← decodeNum (getOr d "subTotal" (JValue.num 0))
  let tax ← decodeNum (getOr d "tax" (JValue.num 0))
  let grand_total ← decodeNum (getOr d "grandTotal" (JValue.num 0))
  pure (tax_rate, sub_total, tax, grand_total)

/-- The approval fields of `PurchaseOrder.from_dict`:
`data.get("isApproved", False)` and `data.get("approvalReason")`. -/
def approvalFields (d : JDict) : Option (Bool × Option String) := do
  let is_approved ← decodeBool (getOr d "isApproved" (JValue.bool false))
  let approval_reason ← decodeOptStr (getOr d "approvalReason" JValue.null)
  pure (is_approved, approval_reason)

/-- Embedding of `PurchaseOrder.from_dict`: items decoded from `data.get("items", [])`,
every other field read with `data.get` and the dataclass defaults
(strings to `None`, numerics to `0`, `isApproved` to `False`). -/
def from_dict (d : JDict) : Option PurchaseOrder := do
  let items ← decodeItems (getOr d "items" (JValue.arr []))
  let (supplier_name, supplier_address_line1, supplier_address_line2,
    supplier_city, supplier_state, supplier_postal_code, supplier_country) ← supplierFields d
  let (po_number, created_by, buyer_department, notes) ← metaFields d
  let (tax_rate, sub_total, tax, grand_total) ← amountFields d
  let (is_approved, approval_reason) ← approvalFields d
  pure ⟨supplier_name, supplier_address_line1, supplier_address_line2,
    supplier_city, supplier_state, supplier_postal_code, supplier_country,
    items, po_number, created_by, buyer_department, notes,
    tax_rate, sub_total, tax, grand_total, is_approved, approval_reason⟩

/-- Embedding of `PurchaseOrder.to_json`, which is `json.dumps(self.to_dict(), indent=2)`.
The stdlib pair `json.dumps` / `json.loads` is external to the repository
and is a documented inverse pair on these values, so the model keeps the
JSON tree itself as the wire form. -/
def to_json (po : PurchaseOrder) : JValue :=
  JValue.obj po.to_dict

/-- Embedding of `PurchaseOrder.from_json`, which is `from_dict(json.loads(s))`; a payload
that is not a JSON object makes `data.get` fail in Python. -/
def from_json : JValue → Option PurchaseOrder
  | JValue.obj d => from_dict d
  | _ => none

end PurchaseOrder

/-- The `models.py` dataclass `PurchaseOrderApproval`: the approval-decision
value. -/
structure PurchaseOrderApproval where
  po_number : Option String := none
  is_approved : Bool := false
  approval_reason : Option String := none

namespace PurchaseOrderApproval

/-- Embedding of `PurchaseOrderApproval.to_dict`. -/
def to_dict (a : PurchaseOrderApproval) : JDict :=
  [ ("poNumber", jstr a.po_number),
    ("isApproved", JValue.bool a.is_approved),
    ("approvalReason", jstr a.approval_reason) ]

/-- Embedding of `PurchaseOrderApproval.from_dict`. -/
def from_dict (d : JDict) : Option PurchaseOrderApproval := do
  let po_number ← decodeOptStr (getOr d "poNumber" JValue.null)
  let is_approved ← decodeBool (getOr d "isApproved" (JValue.bool false))
  let approval_reason ← decodeOptStr (getOr d "approvalReason" JValue.null)
  pure ⟨po_number, is_approved, approval_reason⟩

end PurchaseOrderApproval

@[simp] theorem decodeItems_to_dict (items : List PurchaseOrderItem) :
    decodeItems (JValue.arr (items.map fun it => JValue.obj it.to_dict)) =
      some items := by
  induction items with
  | nil => rfl
  | cons it rest ih =>
      simp only [decodeItems] at ih
      simp [decodeItems, decodeItemList, decodeItem, item_from_dict_to_dict, ih]

theorem getOr_to_dict_items (po : PurchaseOrder) :
    getOr po.to_dict "items" (JValue.arr []) =
      JValue.arr (po.items.map fun it => JValue.obj it.to_dict) := rfl

@[simp] theorem supplierFields_to_dict (po : PurchaseOrder) :
    PurchaseOrder.supplierFields po.to_dict =
      some (po.supplier_name, po.supplier_address_line1,
        po.supplier_address_line2, po.supplier_city, po.supplier_state,
        po.supplier_postal_code, po.supplier_country) := by
  simp [PurchaseOrder.supplierFields, PurchaseOrder.to_dict, getOr, pyGet]

@[simp] theorem metaFields_to_dict (po : PurchaseOrder) :
    PurchaseOrder.metaFields po.to_dict =
      some (po.po_number, po.created_by, po.buyer_department, po.notes) := by
  simp [PurchaseOrder.metaFields, PurchaseOrder.to_dict, getOr, pyGet]

@[simp] theorem amountFields_to_dict (po : PurchaseOrder) :
    PurchaseOrder.amountFields po.to_dict =
      some (po.tax_rate, po.sub_total, po.tax, po.grand_total) := by
  simp [PurchaseOrder.amountFields, PurchaseOrder.to_dict, getOr, pyGet]

@[simp] theorem approvalFields_to_dict (po : PurchaseOrder) :
    PurchaseOrder.approvalFields po.to_dict =
      some (po.is_approved, po.approval_reason) := by
  simp [PurchaseOrder.approvalFields, PurchaseOrder.to_dict, getOr, pyGet]

theorem po_from_dict_to_dict (po : PurchaseOrder) :
    PurchaseOrder.from_dict po.to_dict = some po := by
  simp [PurchaseOrder.from_dict, getOr_to_dict_items]

/-! ### Business Rule Evaluator -/

/-- The fixed buyer-department whitelist of rule 3. -/
def approvedDepartments : List String := ["Travel", "Marketing", "IT", "HR"]

/-- Modelled from the spec: the Business Rule Evaluator (spec §4.2) is part
of the repository's Rust data agent, whose source files are not in the
tree (only its example client is).  Following the spec's words: a pure,
total, deterministic function over a `PurchaseOrder`, checking the three
rules in order with short-circuit on the first failure — reject when the
grand total meets or exceeds 1000 with a reason naming the offending
total, then when the supplier name is empty or absent, then when the
buyer department is outside the fixed whitelist; on full pass approve
with a fixed affirmative reason. -/
def evaluatePurchaseOrder (po : PurchaseOrder) : PurchaseOrderApproval :=
  if 1000 ≤ po.grand_total then
    ⟨po.po_number, false,
      "Rejected: grand total " ++ toString po.grand_total ++
        " meets or exceeds the 1000 threshold"⟩
  else if po.supplier_name.getD "" = "" then
    ⟨po.po_number, false, "Rejected: supplier name is missing"⟩
  else if !(approvedDepartments.contains (po.buyer_department.getD "")) then
    ⟨po.po_number, false,
      "Rejected: buyer department " ++ po.buyer_department.getD "" ++
        " is not an approved department"⟩
  else
    ⟨po.po_number, true, "Approved: purchase order meets all approval criteria"⟩

/-- The reason text is present and mentions a numeric value: the value's
rendering occurs verbatim inside the text. -/
def mentionsRat (reason : Option String) (t : ℚ) : Prop :=
  ∃ a b, reason = some (a ++ toString t ++ b)

/-! ### Agents (`agents.py`) -/

/-- Python truthiness of an optional string: `None` and `""` are falsy,
every other string is truthy. -/
def truthyOpt : Option String → Bool
  | none => false
  | some s => !(s == "")

/-- Python `a or b` on optional strings: `b` whenever `a` is falsy. -/
def pyOr (a b : Option String) : Option String :=
  if truthyOpt a then a else b

/-- The configuration a successfully constructed `ProcessingAgent` holds. -/
structure ProcessingAgentConfig where
  endpoint : Option String
  api_key : Option String
  api_version : Option String
  deployment_name : Option String

/-- Embedding of `ProcessingAgent.__init__`: each setting falls back from the argument
to `os.getenv` (the oracle `env`), then a `ValueError` is raised unless
all of endpoint, API key and deployment name are truthy
(`if not all([...])`).  The missing `api_version` is stored but never
checked.  The subsequent `AzureOpenAI` client construction is an external
call and is not modelled. -/
def ProcessingAgent.init (endpoint api_key deployment_name api_version : Option String)
    (env : String → Option String) : Except String ProcessingAgentConfig :=
  let ep := pyOr endpoint (env "ENDPOINT")
  let key := pyOr api_key (env "API_KEY")
  let ver := pyOr api_version (env "API_VERSION")
  let dep := pyOr deployment_name (env "DEPLOYMENT_NAME")
  if truthyOpt ep && truthyOpt key && truthyOpt dep then
    Except.ok ⟨ep, key, ver, dep⟩
  else
    Except.error "Missing required configuration: ENDPOINT, API_KEY, and DEPLOYMENT_NAME must be provided"

/-- The external chat-completion capability: for the user message sent,
either the returned text or the message of the exception the call
raises. -/
structure CompletionEnv where
  reply : String → Except String String

/-- The user message actually sent by `invoke`:
`message or "Hello, please introduce yourself."` — the fixed greeting
replaces a falsy (empty) message. -/
def userContent (message : String) : String :=
  if message = "" then "Hello, please introduce yourself." else message

/-- Embedding of `ProcessingAgent.invoke`: one completion call inside `try`; the
returned text is passed through, an exception is caught and wrapped as
`"Error processing request: ..."` — `invoke` itself never raises and
never retries.  The first component records the user messages sent to
the completion service, in order. -/
def ProcessingAgent.invoke (env : CompletionEnv) (message : String) :
    List String × String :=
  let sent := userContent message
  match env.reply sent with
  | Except.ok text => ([sent], text)
  | Except.error e => ([sent], "Error processing request: " ++ e)

/-- The two attributes `ProcessingAgentExecutor.execute` probes on the
request context; `none` models both an absent attribute and a falsy
`None` value. -/
structure RequestContext where
  content : Option String
  message : Option String

/-- The input-resolution block of `execute`: the first truthy attribute
among `content` then `message`, otherwise the empty string. -/
def resolveInput (ctx : RequestContext) : String :=
  if truthyOpt ctx.content then ctx.content.getD ""
  else if truthyOpt ctx.message then ctx.message.getD ""
  else ""

/-- The control flow of `ProcessingAgentExecutor.execute`:
`cancelled₁` is the `_cancelled` flag at the initial check, `cancelled₂`
the flag at the check guarding the enqueue (the same check appears in the
`except` handler); `body` is the outcome of the try body — the result
text, or the message of an exception raised on the way.  Returns the
texts enqueued on the event queue, in order. -/
def executeEvents (cancelled₁ cancelled₂ : Bool) (body : Except String String) :
    List String :=
  if cancelled₁ then []
  else
    match body with
    | Except.ok result => if cancelled₂ then [] else [result]
    | Except.error e => if cancelled₂ then [] else ["Processing failed: " ++ e]

/-- Embedding of `ProcessingAgentExecutor.execute` with the agent's own `invoke` as the
try body; `invoke` never raises (it catches exceptions itself), so the
body outcome is its returned text. -/
def executeRun (cancelled₁ cancelled₂ : Bool) (ctx : RequestContext)
    (env : CompletionEnv) : List String :=
  executeEvents cancelled₁ cancelled₂
    (Except.ok (ProcessingAgent.invoke env (resolveInput ctx)).2)

/-- One operation served by a `ProcessingAgentExecutor`: a `cancel` call
or an `execute` run for one task. -/
inductive ExecutorOp where
  | cancel : ExecutorOp
  | exec : RequestContext → CompletionEnv → ExecutorOp

/-- One step of the executor.  The single shared `_cancelled` flag is the
whole mutable state; `cancel` sets it to `True` and nothing ever writes
`False`; `execute` reads it but never writes it.  Returns the new flag
and the events the step enqueued. -/
def executorStep (cancelled : Bool) : ExecutorOp → Bool × List String
  | ExecutorOp.cancel => (true, [])
  | ExecutorOp.exec ctx env => (cancelled, executeRun cancelled cancelled ctx env)

/-- Run a sequence of operations against the executor, collecting every
enqueued event in order. -/
def executorRun (cancelled : Bool) : List ExecutorOp → Bool × List String
  | [] => (cancelled, [])
  | op :: ops =>
      let st := executorStep cancelled op
      let rest := executorRun st.1 ops
      (rest.1, st.2 ++ rest.2)

/-! ### Claim theorems -/

/-- Claim C1: every purchase order whose grand total is at least 1000 is
rejected by the Business Rule Evaluator with a reason mentioning the
offending total; in particular the
`supplierName = "Tech Supply Co", buyerDepartment = "IT",
grandTotal = 2159.978` scenario deserializes and is rejected with such a
reason.  (Evaluator modelled from the spec: its source, the Rust data
agent, is not in the tree.) -/
theorem C1_grand_total_rejection :
    (∀ po : PurchaseOrder, 1000 ≤ po.grand_total →
      (evaluatePurchaseOrder po).is_approved = false ∧
        mentionsRat (evaluatePurchaseOrder po).approval_reason po.grand_total) ∧
    (∃ po, PurchaseOrder.from_dict
        [("supplierName", JValue.str "Tech Supply Co"),
         ("buyerDepartment", JValue.str "IT"),
         ("grandTotal", JValue.num (2159978 / 1000))] = some po ∧
      1000 ≤ po.grand_total ∧
      (evaluatePurchaseOrder po).is_approved = false ∧
      mentionsRat (evaluatePurchaseOrder po).approval_reason po.grand_total) := by
  have main : ∀ po : PurchaseOrder, 1000 ≤ po.grand_total →
      (evaluatePurchaseOrder po).is_approved = false ∧
        mentionsRat (evaluatePurchaseOrder po).approval_reason po.grand_total := by
    intro po h
    constructor
    · simp [evaluatePurchaseOrder, h]
    · refine ⟨"Rejected: grand total ",
        " meets or exceeds the 1000 threshold", ?_⟩
      simp [evaluatePurchaseOrder, h]
  have hq : (1000 : ℚ) ≤ 2159978 / 1000 := by norm_num
  refine ⟨main, ⟨some "Tech Supply Co", none, none, none, none, none, none,
    [], none, none, some "IT", none, 0, 0, 0, 2159978 / 1000, false, none⟩,
    rfl, hq, main _ hq⟩

/-- Claim C1 witness: a concrete order with grand total 1500 is rejected
with a reason mentioning 1500. -/
theorem C1_grand_total_rejection_witness :
    (evaluatePurchaseOrder ⟨none, none, none, none, none, none, none, [],
      none, none, none, none, 0, 0, 0, 1500, false, none⟩).is_approved = false ∧
    mentionsRat (evaluatePurchaseOrder ⟨none, none, none, none, none, none,
      none, [], none, none, none, none, 0, 0, 0, 1500, false,
      none⟩).approval_reason 1500 :=
  C1_grand_total_rejection.1 _ (by norm_num)

/-- Claim C2: in one `ProcessingAgentExecutor.execute` run, a cancellation
flag already set at the initial check yields zero enqueued events, and a
flag unset at both checks yields exactly one event carrying the result
text or the error text. -/
theorem C2_terminal_event_discipline (c₁ c₂ : Bool) (body : Except String String) :
    (c₁ = true → executeEvents c₁ c₂ body = []) ∧
    (c₁ = false → c₂ = false →
      (executeEvents c₁ c₂ body).length = 1 ∧
      executeEvents c₁ c₂ body =
        [match body with
         | Except.ok r => r
         | Except.error e => "Processing failed: " ++ e]) := by
  constructor
  · intro h
    simp [executeEvents, h]
  · rintro rfl rfl
    rcases body with t | e <;> simp [executeEvents]

/-- Claim C2 witness: cancelled-before yields no event; never-cancelled
yields exactly the wrapped error event. -/
theorem C2_terminal_event_discipline_witness :
    executeEvents true false (Except.ok "done") = [] ∧
    executeEvents false false (Except.error "boom") =
      ["Processing failed: boom"] :=
  ⟨(C2_terminal_event_discipline true false (Except.ok "done")).1 rfl,
   ((C2_terminal_event_discipline false false (Except.error "boom")).2 rfl rfl).2⟩

/-- Claim C3: serialize→deserialize is lossless for every purchase order
(empty items list and all-`None` optional fields included):
`from_dict (to_dict po)` recovers `po` in every field, and
`from_json (to_json po)` likewise (the stdlib `json.dumps` / `json.loads`
pair is external and modelled as the identity inverse pair on the JSON
tree). -/
theorem C3_serialization_roundtrip (po : PurchaseOrder) :
    PurchaseOrder.from_dict po.to_dict = some po ∧
    PurchaseOrder.from_json po.to_json = some po :=
  ⟨po_from_dict_to_dict po, po_from_dict_to_dict po⟩

/-- Claim C5: when the completion call raises, `ProcessingAgent.invoke`
returns normally (no propagation), has sent exactly one request, and its
result is the single wrapped error text, with no case analysis on the
error kind. -/
theorem C5_invoke_error_contract (env : CompletionEnv) (m e : String)
    (h : env.reply (userContent m) = Except.error e) :
    ProcessingAgent.invoke env m =
      ([userContent m], "Error processing request: " ++ e) ∧
    (ProcessingAgent.invoke env m).1.length = 1 := by
  constructor <;> simp [ProcessingAgent.invoke, h]

/-- Claim C5 witness: a timeout-style exception on the one attempt is
wrapped into the returned text. -/
theorem C5_invoke_error_contract_witness :
    ProcessingAgent.invoke ⟨fun _ => Except.error "timeout"⟩ "payload" =
      (["payload"], "Error processing request: timeout") ∧
    (ProcessingAgent.invoke ⟨fun _ => Except.error "timeout"⟩ "payload").1.length = 1 :=
  C5_invoke_error_contract ⟨fun _ => Except.error "timeout"⟩ "payload" "timeout" rfl

/-- Claim C6: `to_dict` of a purchase order produces exactly the eighteen
serialized keys in order, each serialized item exactly the five item
keys, and a serialized approval decision exactly its three keys. -/
theorem C6_exact_serialized_keys :
    (∀ po : PurchaseOrder, po.to_dict.map Prod.fst =
      ["supplierName", "supplierAddressLine1", "supplierAddressLine2",
       "supplierCity", "supplierState", "supplierPostalCode",
       "supplierCountry", "items", "poNumber", "createdBy",
       "buyerDepartment", "notes", "taxRate", "subTotal", "tax",
       "grandTotal", "isApproved", "approvalReason"]) ∧
    (∀ it : PurchaseOrderItem, it.to_dict.map Prod.fst =
      ["itemCode", "description", "quantity", "unitPrice", "lineTotal"]) ∧
    (∀ a : PurchaseOrderApproval, a.to_dict.map Prod.fst =
      ["poNumber", "isApproved", "approvalReason"]) :=
  ⟨fun _ => rfl, fun _ => rfl, fun _ => rfl⟩

/-- Claim C8: constructing a `ProcessingAgent` fails (the `ValueError`)
exactly when one of endpoint, API key or deployment name resolves to
nothing truthy from argument or environment; the resolved `api_version`
never influences success, so its absence alone cannot fail the
constructor. -/
theorem C8_config_fail_fast (e k dn v : Option String)
    (env : String → Option String) :
    ((ProcessingAgent.init e k dn v env).isOk =
      (truthyOpt (pyOr e (env "ENDPOINT")) &&
        truthyOpt (pyOr k (env "API_KEY")) &&
        truthyOpt (pyOr dn (env "DEPLOYMENT_NAME")))) ∧
    (∀ v', (ProcessingAgent.init e k dn v env).isOk =
      (ProcessingAgent.init e k dn v' env).isOk) ∧
    ((truthyOpt (pyOr e (env "ENDPOINT")) &&
        truthyOpt (pyOr k (env "API_KEY")) &&
        truthyOpt (pyOr dn (env "DEPLOYMENT_NAME"))) = false →
      ProcessingAgent.init e k dn v env = Except.error
        "Missing required configuration: ENDPOINT, API_KEY, and DEPLOYMENT_NAME must be provided") := by
  have main : ∀ v₀ : Option String, (ProcessingAgent.init e k dn v₀ env).isOk =
      (truthyOpt (pyOr e (env "ENDPOINT")) &&
        truthyOpt (pyOr k (env "API_KEY")) &&
        truthyOpt (pyOr dn (env "DEPLOYMENT_NAME"))) := by
    intro v₀
    by_cases h : (truthyOpt (pyOr e (env "ENDPOINT")) &&
        truthyOpt (pyOr k (env "API_KEY")) &&
        truthyOpt (pyOr dn (env "DEPLOYMENT_NAME"))) = true
    · simp [ProcessingAgent.init, h, Except.isOk, Except.toBool]
    · simp only [Bool.not_eq_true] at h
      simp [ProcessingAgent.init, h, Except.isOk, Except.toBool]
  refine ⟨main v, fun v' => (main v).trans (main v').symm, ?_⟩
  intro h
  simp [ProcessingAgent.init, h]

/-- Claim C8 witness: with nothing supplied and an empty environment the
constructor fails with the configuration error; supplying the three
required settings succeeds even with `api_version` missing. -/
theorem C8_config_fail_fast_witness :
    ProcessingAgent.init none none none none (fun _ => none) = Except.error
      "Missing required configuration: ENDPOINT, API_KEY, and DEPLOYMENT_NAME must be provided" ∧
    (ProcessingAgent.init (some "https://endpoint") (some "key")
      (some "deploy") none (fun _ => none)).isOk = true :=
  ⟨(C8_config_fail_fast none none none none (fun _ => none)).2.2 rfl,
   (C8_config_fail_fast (some "https://endpoint") (some "key")
      (some "deploy") none (fun _ => none)).1⟩

/-- Claim C9: `cancel` sets the shared flag to true, is idempotent, and no
operation resets the flag: once set, every later `execute` run on the
same executor enqueues zero events. -/
theorem C9_cancel_monotone_idempotent (s : Bool) (ops : List ExecutorOp) :
    (executorStep s ExecutorOp.cancel).1 = true ∧
    executorStep (executorStep s ExecutorOp.cancel).1 ExecutorOp.cancel =
      executorStep s ExecutorOp.cancel ∧
    (s = true → (executorRun s ops).1 = true ∧ (executorRun s ops).2 = []) := by
  refine ⟨rfl, rfl, ?_⟩
  rintro rfl
  induction ops with
  | nil => exact ⟨rfl, rfl⟩
  | cons op ops ih =>
      rcases op with _ | ⟨ctx, env⟩ <;>
        simpa [executorRun, executorStep, executeRun, executeEvents] using ih

/-- Claim C9 witness: after a cancel, an execute run enqueues nothing and
the flag stays true. -/
theorem C9_cancel_monotone_idempotent_witness :
    (executorRun true [ExecutorOp.exec ⟨some "po payload", none⟩
      ⟨fun _ => Except.ok "result"⟩]).1 = true ∧
    (executorRun true [ExecutorOp.exec ⟨some "po payload", none⟩
      ⟨fun _ => Except.ok "result"⟩]).2 = [] :=
  (C9_cancel_monotone_idempotent true
    [ExecutorOp.exec ⟨some "po payload", none⟩ ⟨fun _ => Except.ok "result"⟩]).2.2 rfl

/-- Claim C10: with neither a truthy `content` nor a truthy `message`
attribute the resolved input is empty, so `invoke` (as also when called
with `""` directly) sends only the fixed greeting prompt instead of a
purchase-order payload and returns whatever text the service produces
for it. -/
theorem C10_empty_input_default_prompt (ctx : RequestContext)
    (env : CompletionEnv) (hc : truthyOpt ctx.content = false)
    (hm : truthyOpt ctx.message = false) :
    resolveInput ctx = "" ∧
    (ProcessingAgent.invoke env (resolveInput ctx)).1 =
      ["Hello, please introduce yourself."] ∧
    (∀ t, env.reply "Hello, please introduce yourself." = Except.ok t →
      (ProcessingAgent.invoke env (resolveInput ctx)).2 = t) ∧
    (ProcessingAgent.invoke env "").1 = ["Hello, please introduce yourself."] := by
  have h1 : resolveInput ctx = "" := by simp [resolveInput, hc, hm]
  rw [h1]
  refine ⟨rfl, ?_, ?_, ?_⟩
  · rcases h : env.reply (userContent "") with t | er <;>
      simp [ProcessingAgent.invoke, userContent, h] <;>
      simp [userContent] at h <;> simp [h]
  · intro t ht
    have ht' : env.reply (userContent "") = Except.ok t := ht
    simp [ProcessingAgent.invoke, ht']
  · rcases h : env.reply (userContent "") with t | er <;>
      simp [ProcessingAgent.invoke, userContent, h] <;>
      simp [userContent] at h <;> simp [h]

/-- Claim C10 witness: an empty context makes the agent send the greeting
prompt and return the service's text for it. -/
theorem C10_empty_input_default_prompt_witness :
    resolveInput ⟨none, none⟩ = "" ∧
    (ProcessingAgent.invoke ⟨fun _ => Except.ok "greetings"⟩
      (resolveInput ⟨none, none⟩)).2 = "greetings" := by
  obtain ⟨h1, h2, h3, h4⟩ := C10_empty_input_default_prompt ⟨none, none⟩
    ⟨fun _ => Except.ok "greetings"⟩ rfl rfl
  exact ⟨h1, h3 "greetings" rfl⟩

/-! ### Well-shaped payloads and key lemmas for C4 / C7 -/

/-- A binding is well-shaped for its key: the keys `from_dict` reads must
carry their serialized type; keys `from_dict` never reads are
unconstrained. -/
def keyOK (k : String) (v : JValue) : Bool :=
  if k == "supplierName" || k == "supplierAddressLine1" ||
      k == "supplierAddressLine2" || k == "supplierCity" ||
      k == "supplierState" || k == "supplierPostalCode" ||
      k == "supplierCountry" || k == "poNumber" || k == "createdBy" ||
      k == "buyerDepartment" || k == "notes" || k == "approvalReason" ||
      k == "itemCode" || k == "description" then
    (decodeOptStr v).isSome
  else if k == "taxRate" || k == "subTotal" || k == "tax" ||
      k == "grandTotal" || k == "quantity" || k == "unitPrice" ||
      k == "lineTotal" then
    (decodeNum v).isSome
  else if k == "isApproved" then
    (decodeBool v).isSome
  else if k == "items" then
    (decodeItems v).isSome
  else
    true

/-- Every binding of the dictionary is well-shaped for its key: the
payload has the serialized shape except that any subset of keys may be
absent. -/
def dictOK (d : JDict) : Bool := d.all fun p => keyOK p.1 p.2

theorem pyGet_mem {d : JDict} {k : String} {v : JValue}
    (h : pyGet d k = some v) : (k, v) ∈ d := by
  induction d with
  | nil => simp [pyGet] at h
  | cons p rest ih =>
      rcases p with ⟨k', v'⟩
      by_cases hk : k = k'
      · subst hk
        simp [pyGet] at h
        simp [h]
      · simp [pyGet, hk] at h
        exact List.mem_cons_of_mem _ (ih h)

theorem getOr_of_hasKey_false {d : JDict} {k : String} (dflt : JValue)
    (h : hasKey d k = false) : getOr d k dflt = dflt := by
  unfold hasKey at h
  unfold getOr
  rcases hp : pyGet d k with _ | v
  · rfl
  · rw [hp] at h
    simp at h

theorem getOr_keyOK (d : JDict) (k : String) (dflt : JValue)
    (h : dictOK d = true) (hd : keyOK k dflt = true) :
    keyOK k (getOr d k dflt) = true := by
  unfold getOr
  rcases hp : pyGet d k with _ | v
  · simpa using hd
  · have hm := pyGet_mem hp
    have hall := List.all_eq_true.mp h ⟨k, v⟩ hm
    simpa using hall

/-- Claim C4: a payload of the serialized shape from which any subset of
keys is absent deserializes without error, defaulting missing string
fields to `None`, missing numeric fields to zero, and a missing items
key to the empty list (for items, the same holds for each item
dictionary). -/
theorem C4_missing_fields_default :
    (∀ d : JDict, dictOK d = true →
      ∃ po, PurchaseOrder.from_dict d = some po ∧
        (hasKey d "supplierName" = false → po.supplier_name = none) ∧
        (hasKey d "supplierAddressLine1" = false → po.supplier_address_line1 = none) ∧
        (hasKey d "supplierAddressLine2" = false → po.supplier_address_line2 = none) ∧
        (hasKey d "supplierCity" = false → po.supplier_city = none) ∧
        (hasKey d "supplierState" = false → po.supplier_state = none) ∧
        (hasKey d "supplierPostalCode" = false → po.supplier_postal_code = none) ∧
        (hasKey d "supplierCountry" = false → po.supplier_country = none) ∧
        (hasKey d "poNumber" = false → po.po_number = none) ∧
        (hasKey d "createdBy" = false → po.created_by = none) ∧
        (hasKey d "buyerDepartment" = false → po.buyer_department = none) ∧
        (hasKey d "notes" = false → po.notes = none) ∧
        (hasKey d "taxRate" = false → po.tax_rate = 0) ∧
        (hasKey d "subTotal" = false → po.sub_total = 0) ∧
        (hasKey d "tax" = false → po.tax = 0) ∧
        (hasKey d "grandTotal" = false → po.grand_total = 0) ∧
        (hasKey d "items" = false → po.items = [])) ∧
    (∀ d : JDict, dictOK d = true →
      ∃ it, PurchaseOrderItem.from_dict d = some it ∧
        (hasKey d "itemCode" = false → it.item_code = none) ∧
        (hasKey d "description" = false → it.description = none) ∧
        (hasKey d "quantity" = false → it.quantity = 0) ∧
        (hasKey d "unitPrice" = false → it.unit_price = 0) ∧
        (hasKey d "lineTotal" = false → it.line_total = 0)) := by
  constructor
  · intro d hOK
    have hOKit : (decodeItems (getOr d "items" (JValue.arr []))).isSome = true :=
      getOr_keyOK d "items" (JValue.arr []) hOK rfl
    obtain ⟨its, hits⟩ := Option.isSome_iff_exists.mp hOKit
    have hOK1 : (decodeOptStr (getOr d "supplierName" JValue.null)).isSome = true :=
      getOr_keyOK d "supplierName" JValue.null hOK rfl
    obtain ⟨x1, hx1⟩ := Option.isSome_iff_exists.mp hOK1
    have hOK2 : (decodeOptStr (getOr d "supplierAddressLine1" JValue.null)).isSome = true :=
      getOr_keyOK d "supplierAddressLine1" JValue.null hOK rfl
    obtain ⟨x2, hx2⟩ := Option.isSome_iff_exists.mp hOK2
    have hOK3 : (decodeOptStr (getOr d "supplierAddressLine2" JValue.null)).isSome = true :=
      getOr_keyOK d "supplierAddressLine2" JValue.null hOK rfl
    obtain ⟨x3, hx3⟩ := Option.isSome_iff_exists.mp hOK3
    have hOK4 : (decodeOptStr (getOr d "supplierCity" JValue.null)).isSome = true :=
      getOr_keyOK d "supplierCity" JValue.null hOK rfl
    obtain ⟨x4, hx4⟩ := Option.isSome_iff_exists.mp hOK4
    have hOK5 : (decodeOptStr (getOr d "supplierState" JValue.null)).isSome = true :=
      getOr_keyOK d "supplierState" JValue.null hOK rfl
    obtain ⟨x5, hx5⟩ := Option.isSome_iff_exists.mp hOK5
    have hOK6 : (decodeOptStr (getOr d "supplierPostalCode" JValue.null)).isSome = true :=
      getOr_keyOK d "supplierPostalCode" JValue.null hOK rfl
    obtain ⟨x6, hx6⟩ := Option.isSome_iff_exists.mp hOK6
    have hOK7 : (decodeOptStr (getOr d "supplierCountry" JValue.null)).isSome = true :=
      getOr_keyOK d "supplierCountry" JValue.null hOK rfl
    obtain ⟨x7, hx7⟩ := Option.isSome_iff_exists.mp hOK7
    have hOK8 : (decodeOptStr (getOr d "poNumber" JValue.null)).isSome = true :=
      getOr_keyOK d "poNumber" JValue.null hOK rfl
    obtain ⟨x8, hx8⟩ := Option.isSome_iff_exists.mp hOK8
    have hOK9 : (decodeOptStr (getOr d "createdBy" JValue.null)).isSome = true :=
      getOr_keyOK d "createdBy" JValue.null hOK rfl
    obtain ⟨x9, hx9⟩ := Option.isSome_iff_exists.mp hOK9
    have hOK10 : (decodeOptStr (getOr d "buyerDepartment" JValue.null)).isSome = true :=
      getOr_keyOK d "buyerDepartment" JValue.null hOK rfl
    obtain ⟨x10, hx10⟩ := Option.isSome_iff_exists.mp hOK10
    have hOK11 : (decodeOptStr (getOr d "notes" JValue.null)).isSome = true :=
      getOr_keyOK d "notes" JValue.null hOK rfl
    obtain ⟨x11, hx11⟩ := Option.isSome_iff_exists.mp hOK11
    have hOK12 : (decodeOptStr (getOr d "approvalReason" JValue.null)).isSome = true :=
      getOr_keyOK d "approvalReason" JValue.null hOK rfl
    obtain ⟨x12, hx12⟩ := Option.isSome_iff_exists.mp hOK12
    have hOKn1 : (decodeNum (getOr d "taxRate" (JValue.num 0))).isSome = true :=
      getOr_keyOK d "taxRate" (JValue.num 0) hOK rfl
    obtain ⟨n1, hn1⟩ := Option.isSome_iff_exists.mp hOKn1
    have hOKn2 : (decodeNum (getOr d "subTotal" (JValue.num 0))).isSome = true :=
      getOr_keyOK d "subTotal" (JValue.num 0) hOK rfl
    obtain ⟨n2, hn2⟩ := Option.isSome_iff_exists.mp hOKn2
    have hOKn3 : (decodeNum (getOr d "tax" (JValue.num 0))).isSome = true :=
      getOr_keyOK d "tax" (JValue.num 0) hOK rfl
    obtain ⟨n3, hn3⟩ := Option.isSome_iff_exists.mp hOKn3
    have hOKn4 : (decodeNum (getOr d "grandTotal" (JValue.num 0))).isSome = true :=
      getOr_keyOK d "grandTotal" (JValue.num 0) hOK rfl
    obtain ⟨n4, hn4⟩ := Option.isSome_iff_exists.mp hOKn4
    have hOKb : (decodeBool (getOr d "isApproved" (JValue.bool false))).isSome = true :=
      getOr_keyOK d "isApproved" (JValue.bool false) hOK rfl
    obtain ⟨b1, hb1⟩ := Option.isSome_iff_exists.mp hOKb
    refine ⟨⟨x1, x2, x3, x4, x5, x6, x7, its, x8, x9, x10, x11,
      n1, n2, n3, n4, b1, x12⟩, ?_, ?_, ?_, ?_, ?_, ?_, ?_, ?_, ?_, ?_,
      ?_, ?_, ?_, ?_, ?_, ?_, ?_⟩
    · simp [PurchaseOrder.from_dict, PurchaseOrder.supplierFields,
        PurchaseOrder.metaFields, PurchaseOrder.amountFields,
        PurchaseOrder.approvalFields, hits, hx1, hx2, hx3, hx4, hx5, hx6,
        hx7, hx8, hx9, hx10, hx11, hx12, hn1, hn2, hn3, hn4, hb1]
    · intro habs
      rw [getOr_of_hasKey_false _ habs] at hx1
      simp only [decodeOptStr, Option.some.injEq] at hx1
      exact hx1.symm
    · intro habs
      rw [getOr_of_hasKey_false _ habs] at hx2
      simp only [decodeOptStr, Option.some.injEq] at hx2
      exact hx2.symm
    · intro habs
      rw [getOr_of_hasKey_false _ habs] at hx3
      simp only [decodeOptStr, Option.some.injEq] at hx3
      exact hx3.symm
    · intro habs
      rw [getOr_of_hasKey_false _ habs] at hx4
      simp only [decodeOptStr, Option.some.injEq] at hx4
      exact hx4.symm
    · intro habs
      rw [getOr_of_hasKey_false _ habs] at hx5
      simp only [decodeOptStr, Option.some.injEq] at hx5
      exact hx5.symm
    · intro habs
      rw [getOr_of_hasKey_false _ habs] at hx6
      simp only [decodeOptStr, Option.some.injEq] at hx6
      exact hx6.symm
    · intro habs
      rw [getOr_of_hasKey_false _ habs] at hx7
      simp only [decodeOptStr, Option.some.injEq] at hx7
      exact hx7.symm
    · intro habs
      rw [getOr_of_hasKey_false _ habs] at hx8
      simp only [decodeOptStr, Option.some.injEq] at hx8
      exact hx8.symm
    · intro habs
      rw [getOr_of_hasKey_false _ habs] at hx9
      simp only [decodeOptStr, Option.some.injEq] at hx9
      exact hx9.symm
    · intro habs
      rw [getOr_of_hasKey_false _ habs] at hx10
      simp only [decodeOptStr, Option.some.injEq] at hx10
      exact hx10.symm
    · intro habs
      rw [getOr_of_hasKey_false _ habs] at hx11
      simp only [decodeOptStr, Option.some.injEq] at hx11
      exact hx11.symm
    · intro habs
      rw [getOr_of_hasKey_false _ habs] at hn1
      simp only [decodeNum_num, Option.some.injEq] at hn1
      exact hn1.symm
    · intro habs
      rw [getOr_of_hasKey_false _ habs] at hn2
      simp only [decodeNum_num, Option.some.injEq] at hn2
      exact hn2.symm
    · intro habs
      rw [getOr_of_hasKey_false _ habs] at hn3
      simp only [decodeNum_num, Option.some.injEq] at hn3
      exact hn3.symm
    · intro habs
      rw [getOr_of_hasKey_false _ habs] at hn4
      simp only [decodeNum_num, Option.some.injEq] at hn4
      exact hn4.symm
    · intro habs
      rw [getOr_of_hasKey_false _ habs] at hits
      simp only [decodeItems, decodeItemList, Option.some.injEq] at hits
      exact hits.symm
  · intro d hOK
    have hOKic : (decodeOptStr (getOr d "itemCode" JValue.null)).isSome = true :=
      getOr_keyOK d "itemCode" JValue.null hOK rfl
    obtain ⟨y1, hy1⟩ := Option.isSome_iff_exists.mp hOKic
    have hOKde : (decodeOptStr (getOr d "description" JValue.null)).isSome = true :=
      getOr_keyOK d "description" JValue.null hOK rfl
    obtain ⟨y2, hy2⟩ := Option.isSome_iff_exists.mp hOKde
    have hOKq : (decodeNum (getOr d "quantity" (JValue.num 0))).isSome = true :=
      getOr_keyOK d "quantity" (JValue.num 0) hOK rfl
    obtain ⟨m1, hm1⟩ := Option.isSome_iff_exists.mp hOKq
    have hOKu : (decodeNum (getOr d "unitPrice" (JValue.num 0))).isSome = true :=
      getOr_keyOK d "unitPrice" (JValue.num 0) hOK rfl
    obtain ⟨m2, hm2⟩ := Option.isSome_iff_exists.mp hOKu
    have hOKl : (decodeNum (getOr d "lineTotal" (JValue.num 0))).isSome = true :=
      getOr_keyOK d "lineTotal" (JValue.num 0) hOK rfl
    obtain ⟨m3, hm3⟩ := Option.isSome_iff_exists.mp hOKl
    refine ⟨⟨y1, y2, m1, m2, m3⟩, ?_, ?_, ?_, ?_, ?_, ?_⟩
    · simp [PurchaseOrderItem.from_dict, hy1, hy2, hm1, hm2, hm3]
    · intro habs
      rw [getOr_of_hasKey_false _ habs] at hy1
      simp only [decodeOptStr, Option.some.injEq] at hy1
      exact hy1.symm
    · intro habs
      rw [getOr_of_hasKey_false _ habs] at hy2
      simp only [decodeOptStr, Option.some.injEq] at hy2
      exact hy2.symm
    · intro habs
      rw [getOr_of_hasKey_false _ habs] at hm1
      simp only [decodeNum_num, Option.some.injEq] at hm1
      exact hm1.symm
    · intro habs
      rw [getOr_of_hasKey_false _ habs] at hm2
      simp only [decodeNum_num, Option.some.injEq] at hm2
      exact hm2.symm
    · intro habs
      rw [getOr_of_hasKey_false _ habs] at hm3
      simp only [decodeNum_num, Option.some.injEq] at hm3
      exact hm3.symm

/-- Claim C4 witness: the empty payload deserializes to the all-default
purchase order (and item). -/
theorem C4_missing_fields_default_witness :
    ∃ po, PurchaseOrder.from_dict [] = some po ∧ po.supplier_name = none ∧
      po.tax_rate = 0 ∧ po.items = [] := by
  obtain ⟨po, hpo, h1, _, _, _, _, _, _, _, _, _, _, h12, _, _, _, h16⟩ :=
    C4_missing_fields_default.1 [] rfl
  exact ⟨po, hpo, h1 rfl, h12 rfl, h16 rfl⟩

/-- Claim C7 counterexample: a payload carrying `isApproved = true`
deserializes with the approval flag already set — intake copies the
approval output fields when the payload provides them. -/
theorem C7_intake_copies_counterexample :
    ∃ po, PurchaseOrder.from_dict [("isApproved", JValue.bool true)] = some po ∧
      po.is_approved = true :=
  ⟨⟨none, none, none, none, none, none, none, [], none, none, none, none,
    0, 0, 0, 0, true, none⟩, rfl, rfl⟩

/-- Claim C7 amended: intake leaves the approval fields at their unset
defaults (`is_approved = False`, `approval_reason = None`) exactly when
the payload omits the `isApproved` / `approvalReason` keys; when they are
present, intake copies the payload values (as the lossless round trip
requires). -/
theorem C7_amended_approval_intake (d : JDict) (po : PurchaseOrder)
    (h : PurchaseOrder.from_dict d = some po) :
    (hasKey d "isApproved" = false → po.is_approved = false) ∧
    (hasKey d "approvalReason" = false → po.approval_reason = none) ∧
    (∀ b, pyGet d "isApproved" = some (JValue.bool b) → po.is_approved = b) ∧
    (∀ s, pyGet d "approvalReason" = some (JValue.str s) →
      po.approval_reason = some s) := by
  rcases h0 : decodeItems (getOr d "items" (JValue.arr [])) with _ | its
  · simp [PurchaseOrder.from_dict, h0] at h
  rcases h1 : PurchaseOrder.supplierFields d with _ | s7
  · simp [PurchaseOrder.from_dict, h0, h1] at h
  rcases h2 : PurchaseOrder.metaFields d with _ | m4
  · simp [PurchaseOrder.from_dict, h0, h1, h2] at h
  rcases h3 : PurchaseOrder.amountFields d with _ | a4
  · simp [PurchaseOrder.from_dict, h0, h1, h2, h3] at h
  rcases h4 : PurchaseOrder.approvalFields d with _ | ap
  · simp [PurchaseOrder.from_dict, h0, h1, h2, h3, h4] at h
  obtain ⟨t1, t2, t3, t4, t5, t6, t7⟩ := s7
  obtain ⟨u1, u2, u3, u4⟩ := m4
  obtain ⟨v1, v2, v3, v4⟩ := a4
  obtain ⟨ia, ar⟩ := ap
  simp [PurchaseOrder.from_dict, h0, h1, h2, h3, h4] at h
  subst h
  rcases hb : decodeBool (getOr d "isApproved" (JValue.bool false)) with _ | b
  · simp [PurchaseOrder.approvalFields, hb] at h4
  rcases hr : decodeOptStr (getOr d "approvalReason" JValue.null) with _ | r
  · simp [PurchaseOrder.approvalFields, hb, hr] at h4
  simp [PurchaseOrder.approvalFields, hb, hr] at h4
  obtain ⟨hbi, hri⟩ := h4
  refine ⟨?_, ?_, ?_, ?_⟩
  · intro habs
    rw [getOr_of_hasKey_false _ habs] at hb
    simp only [decodeBool_bool, Option.some.injEq] at hb
    show ia = false
    rw [← hbi, ← hb]
  · intro habs
    rw [getOr_of_hasKey_false _ habs] at hr
    simp only [decodeOptStr, Option.some.injEq] at hr
    show ar = none
    rw [← hri, ← hr]
  · intro b' hbp
    have hget : getOr d "isApproved" (JValue.bool false) = JValue.bool b' := by
      simp [getOr, hbp]
    rw [hget] at hb
    simp only [decodeBool_bool, Option.some.injEq] at hb
    show ia = b'
    rw [← hbi, ← hb]
  · intro s' hsp
    have hget : getOr d "approvalReason" JValue.null = JValue.str s' := by
      simp [getOr, hsp]
    rw [hget] at hr
    simp only [decodeOptStr, Option.some.injEq] at hr
    show ar = some s'
    rw [← hri, ← hr]

/-- Claim C7 amended witness: the empty payload leaves the approval
fields unset. -/
theorem C7_amended_approval_intake_witness :
    ∃ po, PurchaseOrder.from_dict [] = some po ∧ po.is_approved = false ∧
      po.approval_reason = none := by
  have h := C7_amended_approval_intake []
    ⟨none, none, none, none, none, none, none, [], none, none, none, none,
      0, 0, 0, 0, false, none⟩ rfl
  exact ⟨_, rfl, h.1 rfl, h.2.1 rfl⟩
